import Mathlib

/-!
Shallow embedding of the `lucasfernog/discourse` desktop shell
(`src-tauri/src/main.rs` and `src-tauri/src/menu.rs`) and proofs of the
specification's testable properties.

The shell is declarative configuration over the Tauri host runtime:
a menu builder (`menu::get`), a system-tray registration with a single
"quit" item, and a tray-event dispatcher (`on_system_tray_event`).
The data types below mirror the Tauri API surface the repository uses;
the dispatcher and the menu builder are translated line by line from the
Rust source.
-/

namespace Discourse

/-- Platform-native predefined menu items (the `tauri::MenuItem` enum).
`About` carries the application name, exactly as in the Tauri version the
repository builds against. -/
inductive MenuItem where
  | About (name : String)
  | Hide
  | Services
  | HideOthers
  | ShowAll
  | CloseWindow
  | Quit
  | Copy
  | Cut
  | Undo
  | Redo
  | SelectAll
  | Paste
  | EnterFullScreen
  | Minimize
  | Zoom
  | Separator
deriving DecidableEq, Repr

/-- A custom menu item: stable identifier plus display label
(`tauri::CustomMenuItem`, with the fields this repository sets). -/
structure CustomMenuItem where
  id : String
  title : String
deriving DecidableEq, Repr

/-- `CustomMenuItem::new(id, title)`. -/
def CustomMenuItem.new (id title : String) : CustomMenuItem :=
  { id := id, title := title }

/-- One entry of a menu: a custom item, a native item, or a submenu
(a label and a nested entry list), mirroring `tauri::MenuEntry`.
The nested menu is inlined as its entry list. -/
inductive MenuEntry where
  | CustomItem (item : CustomMenuItem)
  | NativeItem (item : MenuItem)
  | Submenu (title : String) (inner : List MenuEntry)
deriving Repr

/-- A menu is its ordered list of entries (`tauri::Menu`). -/
abbrev Menu := List MenuEntry

/-- `Menu::new()`: the empty menu. -/
def Menu.new : Menu := []

/-- `Menu::add_native_item`: append a native item. -/
def Menu.add_native_item (m : Menu) (i : MenuItem) : Menu :=
  m ++ [MenuEntry.NativeItem i]

/-- `Menu::add_item`: append a custom item. -/
def Menu.add_item (m : Menu) (i : CustomMenuItem) : Menu :=
  m ++ [MenuEntry.CustomItem i]

/-- `Submenu::new(title, inner)`: a submenu entry. -/
def Submenu.new (title : String) (inner : Menu) : MenuEntry :=
  MenuEntry.Submenu title inner

/-- `Menu::add_submenu`: append a submenu entry. -/
def Menu.add_submenu (m : Menu) (s : MenuEntry) : Menu :=
  m ++ [s]

namespace menu

/-- `menu::get` from `src-tauri/src/menu.rs`, translated call for call.
The Rust function takes no arguments; the `Unit` parameter stands for one
call to it. -/
def get (_u : Unit) : Menu :=
  Menu.new
    |>.add_submenu (Submenu.new "Discourse"
      (Menu.new
        |>.add_native_item (MenuItem.About "Discourse")
        |>.add_native_item MenuItem.Separator
        |>.add_native_item MenuItem.Hide
        |>.add_native_item MenuItem.HideOthers
        |>.add_native_item MenuItem.ShowAll
        |>.add_native_item MenuItem.Separator
        |>.add_native_item MenuItem.Quit))
    |>.add_submenu (Submenu.new "Edit"
      (Menu.new
        |>.add_native_item MenuItem.Undo
        |>.add_native_item MenuItem.Redo
        |>.add_native_item MenuItem.Separator
        |>.add_native_item MenuItem.Cut
        |>.add_native_item MenuItem.Copy
        |>.add_native_item MenuItem.Paste))
    |>.add_native_item MenuItem.EnterFullScreen
    |>.add_native_item MenuItem.Separator
    |>.add_native_item MenuItem.Quit

end menu

/-- A system-tray menu is its ordered list of custom items
(`tauri::SystemTrayMenu`; this repository only adds custom items). -/
abbrev SystemTrayMenu := List CustomMenuItem

/-- `SystemTrayMenu::new()`. -/
def SystemTrayMenu.new : SystemTrayMenu := []

/-- `SystemTrayMenu::add_item`. -/
def SystemTrayMenu.add_item (m : SystemTrayMenu) (i : CustomMenuItem) : SystemTrayMenu :=
  m ++ [i]

/-- `tauri::SystemTray`: the tray registration, with its optional menu. -/
structure SystemTray where
  menu : Option SystemTrayMenu

/-- `SystemTray::new()`: a tray with no menu. -/
def SystemTray.new : SystemTray := { menu := none }

/-- `SystemTray::with_menu`: set the tray menu. -/
def SystemTray.with_menu (_t : SystemTray) (m : SystemTrayMenu) : SystemTray :=
  { menu := some m }

/-- The tray value built inline in `main` (`src-tauri/src/main.rs`):
`SystemTray::new().with_menu(SystemTrayMenu::new().add_item(CustomMenuItem::new("quit", "Quit")))`. -/
def mainSystemTray : SystemTray :=
  SystemTray.new.with_menu
    (SystemTrayMenu.new.add_item (CustomMenuItem.new "quit" "Quit"))

/-- `tauri::SystemTrayEvent`, polymorphic in the position and size payload
types (`PhysicalPosition<f64>` / `PhysicalSize<f64>` in the host API); the
dispatcher never inspects them, so their representation is irrelevant. -/
inductive SystemTrayEvent (P S : Type) where
  | LeftClick (position : P) (size : S)
  | RightClick (position : P) (size : S)
  | DoubleClick (position : P) (size : S)
  | MenuItemClick (id : String)

/-- The observable state of one host window: its label and the two state
bits this shell manipulates (minimized, focused). -/
structure Window where
  label : String
  minimized : Bool
  focused : Bool
deriving DecidableEq, Repr

/-- The host application handle as the dispatcher sees it: the windows the
host owns, plus two oracles saying whether the runtime `unminimize` and
`set_focus` calls succeed for a given window label (in Tauri both return
`Result` and can fail inside the runtime). -/
structure AppHandle where
  windows : List Window
  unminimizeOk : String → Bool
  setFocusOk : String → Bool

/-- `Manager::get_window(label)`: look up a window by its label; `None`
when no such window exists. -/
def AppHandle.get_window (app : AppHandle) (label : String) : Option Window :=
  app.windows.find? (fun w => w.label == label)

/-- Apply `f` to every window of `ws` whose label is `label`. -/
def updateWindow (ws : List Window) (label : String) (f : Window → Window) : List Window :=
  ws.map (fun w => if w.label = label then f w else w)

/-- `Window::unminimize()`: on success the window leaves the minimized
state; on runtime failure an error is returned. The success/failure split
comes from the oracle; the state effect follows the host API contract the
spec describes (un-minimize the window). -/
def AppHandle.unminimize (app : AppHandle) (label : String) : Except Unit AppHandle :=
  if app.unminimizeOk label then
    Except.ok
      { app with
        windows := updateWindow app.windows label (fun w => { w with minimized := false }) }
  else
    Except.error ()

/-- `Window::set_focus()`: on success the window gains input focus; on
runtime failure an error is returned. -/
def AppHandle.set_focus (app : AppHandle) (label : String) : Except Unit AppHandle :=
  if app.setFocusOk label then
    Except.ok
      { app with
        windows := updateWindow app.windows label (fun w => { w with focused := true }) }
  else
    Except.error ()

/-- The observable result of one run of the tray-event handler:
the handler returns and the event loop continues with the (possibly
updated) host state; or the process exits with a code
(`std::process::exit`); or the process aborts through the unhandled-error
path (a failed `unwrap`). -/
inductive Outcome where
  | normal (app : AppHandle)
  | exitProcess (code : Nat)
  | aborted

/-- The `on_system_tray_event` closure from `src-tauri/src/main.rs`,
translated arm for arm:
- `LeftClick` ignores position and size, looks up window `"main"` and
  unwraps, then unwraps `unminimize()` and `set_focus()` on it;
- `MenuItemClick` matches the identifier: `"quit"` calls
  `std::process::exit(0)`, anything else falls through to `{}`;
- every other event kind falls through to `{}`. -/
def on_system_tray_event {P S : Type} (app : AppHandle) (event : SystemTrayEvent P S) :
    Outcome :=
  match event with
  | SystemTrayEvent.LeftClick _ _ =>
    match app.get_window "main" with
    | none => Outcome.aborted
    | some window =>
      match app.unminimize window.label with
      | Except.error _ => Outcome.aborted
      | Except.ok app1 =>
        match app1.set_focus window.label with
        | Except.error _ => Outcome.aborted
        | Except.ok app2 => Outcome.normal app2
  | SystemTrayEvent.MenuItemClick id =>
    if id = "quit" then Outcome.exitProcess 0 else Outcome.normal app
  | SystemTrayEvent.RightClick _ _ => Outcome.normal app
  | SystemTrayEvent.DoubleClick _ _ => Outcome.normal app

/-- Projection of the first submenu of a menu: its label and entries. -/
def firstSubmenu (m : Menu) : Option (String × List MenuEntry) :=
  m.findSome? (fun e => match e with
    | MenuEntry.Submenu t inner => some (t, inner)
    | _ => none)

/-- The application name carried by the first `About` native item of an
entry list, if any. -/
def firstAboutName (entries : List MenuEntry) : Option String :=
  entries.findSome? (fun e => match e with
    | MenuEntry.NativeItem (MenuItem.About n) => some n
    | _ => none)

/-- A window returned by `get_window l` has label `l`. -/
theorem AppHandle.get_window_label (app : AppHandle) (l : String) (w : Window)
    (h : app.get_window l = some w) : w.label = l := by
  unfold AppHandle.get_window at h
  have hp := List.find?_some h
  simp only [beq_iff_eq] at hp
  exact hp

/-- Running `unminimize` then `set_focus` on the `"main"` label rewrites
exactly the `"main"` windows to be un-minimized and focused, leaving every
other window untouched. -/
theorem updateWindow_unminimize_focus (ws : List Window) :
    updateWindow (updateWindow ws "main" (fun v => { v with minimized := false })) "main"
      (fun v => { v with focused := true }) =
    ws.map (fun v =>
      if v.label = "main" then { v with minimized := false, focused := true } else v) := by
  simp only [updateWindow, List.map_map]
  have hfun : ((fun v : Window => if v.label = "main" then { v with focused := true } else v) ∘
      (fun v : Window => if v.label = "main" then { v with minimized := false } else v)) =
      (fun v : Window =>
        if v.label = "main" then { v with minimized := false, focused := true } else v) := by
    funext v
    cases v with
    | mk l m f => by_cases h : l = "main" <;> simp [Function.comp, h]
  rw [hfun]

/-- A host state with exactly one window, labelled `"main"`, minimized
and unfocused, over a runtime whose window operations always succeed. -/
def appW : AppHandle :=
  { windows := [{ label := "main", minimized := true, focused := false }]
    unminimizeOk := fun _ => true
    setFocusOk := fun _ => true }

/-- A host state with no windows at all, over a runtime whose window
operations always succeed: the `"main"` lookup fails here. -/
def appNoWindows : AppHandle :=
  { windows := []
    unminimizeOk := fun _ => true
    setFocusOk := fun _ => true }

/-- Claim C1: for every tray menu-item-click event whose identifier is
`"quit"`, the dispatcher terminates the process immediately with exit
code 0 — the outcome is `exitProcess 0`, reached before any window-state
change or cleanup, for every host state. -/
theorem quit_menu_click_exits_zero {P S : Type} (app : AppHandle) :
    on_system_tray_event app (SystemTrayEvent.MenuItemClick "quit" : SystemTrayEvent P S) =
      Outcome.exitProcess 0 := by
  simp [on_system_tray_event]

/-- Claim C2: on a tray left-click, when window `"main"` exists and both
`unminimize` and `set_focus` succeed, the dispatcher returns normally with
every `"main"` window un-minimized and focused and every other window
exactly as it was (the result windows are a pointwise map that is the
identity off the `"main"` label). -/
theorem left_click_unminimizes_and_focuses_main {P S : Type} (app : AppHandle)
    (p : P) (s : S) (w : Window)
    (hw : app.get_window "main" = some w)
    (hu : app.unminimizeOk "main" = true)
    (hf : app.setFocusOk "main" = true) :
    on_system_tray_event app (SystemTrayEvent.LeftClick p s) =
      Outcome.normal
        { app with
          windows := app.windows.map (fun v =>
            if v.label = "main" then { v with minimized := false, focused := true } else v) } := by
  have hl : w.label = "main" := AppHandle.get_window_label app "main" w hw
  simp only [on_system_tray_event, hw, hl, AppHandle.unminimize, AppHandle.set_focus, hu, hf,
    if_true, updateWindow_unminimize_focus]

/-- Witness for C2 at a concrete host: one minimized, unfocused `"main"`
window and an always-succeeding runtime. -/
theorem left_click_unminimizes_and_focuses_main_witness :
    on_system_tray_event appW (SystemTrayEvent.LeftClick () ()) =
      Outcome.normal
        { appW with
          windows := appW.windows.map (fun v =>
            if v.label = "main" then { v with minimized := false, focused := true } else v) } :=
  left_click_unminimizes_and_focuses_main appW () ()
    { label := "main", minimized := true, focused := false } rfl rfl rfl

/-- Claim C3: every tray event that is neither a left-click nor a
menu-item-click with identifier `"quit"` is a no-op: the dispatcher
returns normally with the host state unchanged. -/
theorem other_tray_events_are_noops {P S : Type} (app : AppHandle) (e : SystemTrayEvent P S)
    (hl : ∀ p s, e ≠ SystemTrayEvent.LeftClick p s)
    (hq : ∀ id, e = SystemTrayEvent.MenuItemClick id → id ≠ "quit") :
    on_system_tray_event app e = Outcome.normal app := by
  cases e with
  | LeftClick p s => exact absurd rfl (hl p s)
  | RightClick p s => rfl
  | DoubleClick p s => rfl
  | MenuItemClick id => simp [on_system_tray_event, hq id rfl]

/-- Witness for C3 at a concrete input: a menu-item click with identifier
`"about"` leaves the host state unchanged. -/
theorem other_tray_events_are_noops_witness :
    on_system_tray_event appW (SystemTrayEvent.MenuItemClick "about" : SystemTrayEvent Unit Unit) =
      Outcome.normal appW :=
  other_tray_events_are_noops appW _
    (fun p s h => by cases h)
    (fun id h => by
      injection h with h1
      exact h1 ▸ (by decide : ("about" : String) ≠ "quit"))

/-- Claim C4: on a tray left-click, if the `"main"` window lookup fails,
or the `unminimize` call fails, or the `set_focus` call fails, the
dispatcher aborts the process through the unhandled-error path. -/
theorem left_click_failure_aborts {P S : Type} (app : AppHandle) (p : P) (s : S)
    (h : app.get_window "main" = none ∨ app.unminimizeOk "main" = false ∨
      app.setFocusOk "main" = false) :
    on_system_tray_event app (SystemTrayEvent.LeftClick p s) = Outcome.aborted := by
  cases hw : app.get_window "main" with
  | none => simp [on_system_tray_event, hw]
  | some w =>
    have hl : w.label = "main" := AppHandle.get_window_label app "main" w hw
    rcases h with h | h | h
    · rw [hw] at h; cases h
    · simp [on_system_tray_event, hw, hl, AppHandle.unminimize, h]
    · cases hu : app.unminimizeOk "main" with
      | false => simp [on_system_tray_event, hw, hl, AppHandle.unminimize, hu]
      | true =>
        simp [on_system_tray_event, hw, hl, AppHandle.unminimize, AppHandle.set_focus, hu, h]

/-- Witness for C4 at a concrete host: with no windows at all, the
`"main"` lookup fails and a left-click aborts. -/
theorem left_click_failure_aborts_witness :
    on_system_tray_event appNoWindows (SystemTrayEvent.LeftClick () ()) = Outcome.aborted :=
  left_click_failure_aborts appNoWindows () () (Or.inl rfl)

/-- Claim C5: the menu built at startup is exactly: a `"Discourse"`
submenu with the 7 entries About, Separator, Hide, HideOthers, ShowAll,
Separator, Quit in order; an `"Edit"` submenu with the 6 entries Undo,
Redo, Separator, Cut, Copy, Paste in order; then exactly the 3 top-level
entries EnterFullScreen, Separator, Quit in order. -/
theorem menu_get_structure :
    menu.get () =
      [MenuEntry.Submenu "Discourse"
        [MenuEntry.NativeItem (MenuItem.About "Discourse"),
         MenuEntry.NativeItem MenuItem.Separator,
         MenuEntry.NativeItem MenuItem.Hide,
         MenuEntry.NativeItem MenuItem.HideOthers,
         MenuEntry.NativeItem MenuItem.ShowAll,
         MenuEntry.NativeItem MenuItem.Separator,
         MenuEntry.NativeItem MenuItem.Quit],
       MenuEntry.Submenu "Edit"
        [MenuEntry.NativeItem MenuItem.Undo,
         MenuEntry.NativeItem MenuItem.Redo,
         MenuEntry.NativeItem MenuItem.Separator,
         MenuEntry.NativeItem MenuItem.Cut,
         MenuEntry.NativeItem MenuItem.Copy,
         MenuEntry.NativeItem MenuItem.Paste],
       MenuEntry.NativeItem MenuItem.EnterFullScreen,
       MenuEntry.NativeItem MenuItem.Separator,
       MenuEntry.NativeItem MenuItem.Quit] := rfl

/-- Claim C6: the system tray is registered with exactly one menu entry,
identifier `"quit"`, display label `"Quit"`. -/
theorem tray_single_quit_item :
    mainSystemTray.menu = some [{ id := "quit", title := "Quit" }] := rfl

/-- Claim C7: the menu builder is deterministic with no hidden state: any
two calls return structurally identical menu trees. -/
theorem menu_get_deterministic (u v : Unit) : menu.get u = menu.get v := rfl

/-- Claim C8: the dispatcher's behavior on a left-click does not depend on
the event's position or size payload: any two left-clicks produce the same
outcome on every host state. -/
theorem left_click_ignores_position_size {P S : Type} (app : AppHandle)
    (p1 p2 : P) (s1 s2 : S) :
    on_system_tray_event app (SystemTrayEvent.LeftClick p1 s1) =
      on_system_tray_event app (SystemTrayEvent.LeftClick p2 s2) := rfl

/-- Claim C9: only the left-click path can fail. For every event other
than a left-click the handler either returns normally with the host state
unchanged or exits with code 0 — it never reaches the abort path, and the
`Outcome` type records no error-reporting action because the source
invokes none. -/
theorem non_left_click_never_fails {P S : Type} (app : AppHandle) (e : SystemTrayEvent P S)
    (h : ∀ p s, e ≠ SystemTrayEvent.LeftClick p s) :
    on_system_tray_event app e = Outcome.normal app ∨
      on_system_tray_event app e = Outcome.exitProcess 0 := by
  cases e with
  | LeftClick p s => exact absurd rfl (h p s)
  | RightClick p s => exact Or.inl rfl
  | DoubleClick p s => exact Or.inl rfl
  | MenuItemClick id =>
    by_cases hq : id = "quit"
    · exact Or.inr (by simp [on_system_tray_event, hq])
    · exact Or.inl (by simp [on_system_tray_event, hq])

/-- Witness for C9 at a concrete input: a menu-item click with identifier
`"quit"` never aborts (it exits with code 0). -/
theorem non_left_click_never_fails_witness :
    on_system_tray_event appW (SystemTrayEvent.MenuItemClick "quit" : SystemTrayEvent Unit Unit) =
        Outcome.normal appW ∨
      on_system_tray_event appW
          (SystemTrayEvent.MenuItemClick "quit" : SystemTrayEvent Unit Unit) =
        Outcome.exitProcess 0 :=
  non_left_click_never_fails appW _ (fun p s h => by cases h)

/-- Claim C10: the application name passed to the About entry of the
`"Discourse"` submenu is exactly `"Discourse"`, identical to that
submenu's label. -/
theorem about_name_equals_submenu_label :
    (firstSubmenu (menu.get ())).map (fun sub => (sub.1, firstAboutName sub.2)) =
      some ("Discourse", some "Discourse") := rfl

end Discourse
